import Mathlib

/-!
Shallow embedding of the AstroPi velocity-estimation program (src/main.py).

Numeric values are modelled by exact rationals.  The two transcendental
primitives of the source, math.sqrt and math.hypot, have no exact rational
counterpart, so every definition is parametric in a square-root function
`sqrt : Rat to Rat` (respectively a distance function `hyp`): all the
properties proved below are independent of the numeric value those
primitives return, except where explicitly hypothesised (nonnegativity).
-/

namespace AstroPi

/-- Gravitational constant G, from the default argument of
calculate_v_from_h (6.67430E-11). -/
def Gconst : ℚ := 667430 / 10 ^ 16

/-- Earth radius R, from the default argument of calculate_v_from_h
(6.3781E6). -/
def Rconst : ℚ := 6378100

/-- Earth mass M, from the default argument of calculate_v_from_h
(5.9722E24). -/
def Mconst : ℚ := 59722 * 10 ^ 20

/-- Focal length, from main (d_focale = 0.005). -/
def d_focale : ℚ := 5 / 1000

/-- Sensor width, from main (dim_sensore_x = 0.006287). -/
def dim_sensore_x : ℚ := 6287 / 10 ^ 6

/-- Horizontal pixel count, from main (n_pixel_x = 4056). -/
def n_pixel_x : ℚ := 4056

/-- Velocity from altitude, from calculate_v_from_h:
sqrt(G*M/(R+h)), parametric in the square-root primitive. -/
def calculate_v_from_h (sqrt : ℚ → ℚ) (h : ℚ) : ℚ :=
  sqrt (Gconst * Mconst / (Rconst + h))

/-- Coordinate extraction, from find_matching_coordinates: each match
contributes its pair of pixel coordinates, one per image, in match order. -/
def find_matching_coordinates (matchList : List ((ℚ × ℚ) × (ℚ × ℚ))) :
    List (ℚ × ℚ) × List (ℚ × ℚ) :=
  (matchList.map (fun m => m.1), matchList.map (fun m => m.2))

/-- Mean pixel displacement, from calculate_mean_distance: zip the two
coordinate lists, accumulate hyp(x1-x2, y1-y2) over the zipped list, and
divide by the number of matched pairs unless that number is zero, in which
case return 0.  Parametric in the Euclidean-distance primitive `hyp`
(math.hypot). -/
def calculate_mean_distance (hyp : ℚ → ℚ → ℚ)
    (coordinates_1 coordinates_2 : List (ℚ × ℚ)) : ℚ :=
  let merged_coordinates := coordinates_1.zip coordinates_2
  let all_distances := merged_coordinates.foldl
    (fun acc c => acc + hyp (c.1.1 - c.2.1) (c.1.2 - c.2.2)) 0
  if merged_coordinates.length ≠ 0 then
    all_distances / (merged_coordinates.length : ℚ)
  else 0

/-- The mean displacement as the spec words it: the arithmetic mean of the
Euclidean distances of all matched pairs, 0 when there are no pairs.
Stated over the merged (zipped) list, for comparison with
calculate_mean_distance. -/
def meanDisplacementSpec (hyp : ℚ → ℚ → ℚ)
    (merged : List ((ℚ × ℚ) × (ℚ × ℚ))) : ℚ :=
  if merged = [] then 0
  else (merged.map (fun c => hyp (c.1.1 - c.2.1) (c.1.2 - c.2.2))).sum
    / (merged.length : ℚ)

/-- One pure round of the solver loop in main (lines 111-114): from the
current (v, h) pair, compute v from h, then update h only when the mean
displacement is nonzero.  The pair (0, 400000) is the state before the
first round (h seeded at line 109; v not yet assigned). -/
def solveIter (sqrt : ℚ → ℚ) (average_feature_distance time_difference : ℚ) :
    ℕ → ℚ × ℚ
  | 0 => (0, 400000)
  | n + 1 =>
    let h := (solveIter sqrt average_feature_distance time_difference n).2
    let v := calculate_v_from_h sqrt h
    (v,
      if average_feature_distance ≠ 0 then
        v / (dim_sensore_x * average_feature_distance) * d_focale * n_pixel_x
          * time_difference
      else h)

/-- The solver of main: exactly 8 rounds (n_iteration = 8), returning the
final (v, h) pair. -/
def solve (sqrt : ℚ → ℚ) (d dt : ℚ) : ℚ × ℚ := solveIter sqrt d dt 8

/-- The velocity the solver returns (the v of the 8th round). -/
def solveV (sqrt : ℚ → ℚ) (d dt : ℚ) : ℚ := (solve sqrt d dt).1

/-- One solver round as the spec words it: h is replaced by
v * focalLength * pixelCount / (sensorWidth * d) * deltaT where v is the
velocity computed from the current h by the orbital law. -/
def specStep (sqrt : ℚ → ℚ) (d dt : ℚ) (h : ℚ) : ℚ :=
  calculate_v_from_h sqrt h * d_focale * n_pixel_x / (dim_sensore_x * d) * dt

/-- The kinds of Python exception relevant to main: cv2.error (raised by
the OpenCV feature / matching primitives), ZeroDivisionError (float
division by zero), ValueError (math.sqrt domain error), and an exception
raised by cam.capture. -/
inductive ExcKind where
  | cvError
  | zeroDivisionError
  | valueError
  | captureError
deriving DecidableEq

/-- The exception kinds the per-iteration handler of main catches
(line 118: except (cv2.error, ZeroDivisionError): pass). -/
def caughtByLoop : ExcKind → Bool
  | .cvError => true
  | .zeroDivisionError => true
  | _ => false

/-- The solver rounds of main with Python arithmetic-fault semantics made
explicit: a float division raises ZeroDivisionError when its divisor is 0,
and math.sqrt raises ValueError when its argument is negative.  Everything
else is as in solveIter. -/
def solveExcIter (sqrt : ℚ → ℚ) (d dt : ℚ) : ℕ → Except ExcKind (ℚ × ℚ)
  | 0 => .ok (0, 400000)
  | n + 1 =>
    match solveExcIter sqrt d dt n with
    | .error e => .error e
    | .ok p =>
      let h := p.2
      if Rconst + h = 0 then .error .zeroDivisionError
      else if Gconst * Mconst / (Rconst + h) < 0 then .error .valueError
      else
        let v := sqrt (Gconst * Mconst / (Rconst + h))
        if d ≠ 0 then
          if dim_sensore_x * d = 0 then .error .zeroDivisionError
          else .ok (v, v / (dim_sensore_x * d) * d_focale * n_pixel_x * dt)
        else .ok (v, h)

/-- The 8-round solver with explicit arithmetic-fault semantics. -/
def solveExc (sqrt : ℚ → ℚ) (d dt : ℚ) : Except ExcKind (ℚ × ℚ) :=
  solveExcIter sqrt d dt 8

/-- Outcome of the comparison step of one loop iteration (the try block of
main, lines 104-118): a velocity/height pair appended to the lists, a
caught exception (pass), or an uncaught exception that escapes the loop. -/
inductive StepOut where
  | appended (v h : ℚ)
  | skipped (e : ExcKind)
  | fatal (e : ExcKind)
deriving DecidableEq

/-- The external behaviour one loop iteration depends on: whether
cam.capture succeeds, whether ORB detection/description succeeds, whether
descriptor matching succeeds, the matched coordinate pairs it produces,
and the measured time difference between the two captures. -/
structure IterInput where
  captureOk : Bool
  featuresOk : Bool
  matchOk : Bool
  matchList : List ((ℚ × ℚ) × (ℚ × ℚ))
  dt : ℚ
deriving DecidableEq

/-- How an exception raised inside the try block of main is dispatched by
the except clause: caught kinds are passed over, others escape. -/
def handleTryExc (e : ExcKind) : StepOut :=
  if caughtByLoop e then .skipped e else .fatal e

/-- The mean displacement an iteration measures (lines 106-107 of main). -/
def measuredDistance (hyp : ℚ → ℚ → ℚ) (inp : IterInput) : ℚ :=
  let c := find_matching_coordinates inp.matchList
  calculate_mean_distance hyp c.1 c.2

/-- The try block of main for one frame pair: match the descriptors (a
matching fault raises cv2.error inside the try block), extract the matched
coordinates, measure the mean displacement, run the 8-round solver, and
report the resulting velocity/height pair for appending; an exception is
dispatched through the except clause. -/
def comparePair (sqrt : ℚ → ℚ) (hyp : ℚ → ℚ → ℚ) (inp : IterInput) :
    StepOut :=
  if inp.matchOk then
    match solveExc sqrt (measuredDistance hyp inp) inp.dt with
    | .ok p => .appended p.1 p.2
    | .error e => handleTryExc e
  else handleTryExc .cvError

/-- The velocity sample an iteration contributes, if any. -/
def pairSample (sqrt : ℚ → ℚ) (hyp : ℚ → ℚ → ℚ) (inp : IterInput) :
    Option ℚ :=
  match comparePair sqrt hyp inp with
  | .appended v _ => some v
  | _ => none

/-- The eviction step of main (lines 90-92): when at least 42 frames are
retained, the oldest is removed from the deque and its file deleted
(recorded in the second component). -/
def evictStep (dq ul : List ℕ) : List ℕ × List ℕ :=
  if 42 ≤ dq.length then (dq.drop 1, ul ++ dq.take 1) else (dq, ul)

/-- Retaining one frame: the eviction check followed by appending the new
frame to the deque (lines 90-94 of main). -/
def retainStep (st : List ℕ × List ℕ) (frame : ℕ) : List ℕ × List ℕ :=
  let ev := evictStep st.1 st.2
  (ev.1 ++ [frame], ev.2)

/-- Retaining a whole sequence of frames, starting from an empty deque. -/
def retainAll (frames : List ℕ) : List ℕ × List ℕ :=
  frames.foldl retainStep ([], [])

/-- The mutable state of the acquisition loop of main: the velocity list,
the height list (seeded with one value at line 82), the deque of retained
image paths (as frame indices), and the already-deleted image paths. -/
structure RunState where
  vList : List ℚ
  hList : List ℚ
  deque : List ℕ
  unlinked : List ℕ
deriving DecidableEq

/-- The acquisition loop of main (lines 85-118), iteration counter k and
state threaded explicitly, one IterInput per iteration the 9-minute time
bound admits.  Eviction precedes the capture; a capture fault, or a fault
in ORB detection/description (line 103, outside the try block), escapes
the loop at once; for k = 0 no comparison happens; otherwise the try block
runs and an appended pair extends the lists, while an uncaught exception
escapes the loop. -/
def runLoop (sqrt : ℚ → ℚ) (hyp : ℚ → ℚ → ℚ) :
    ℕ → RunState → List IterInput → RunState × Option ExcKind
  | _, st, [] => (st, none)
  | k, st, inp :: rest =>
    let ev := evictStep st.deque st.unlinked
    if inp.captureOk then
      let st2 : RunState :=
        { st with deque := ev.1 ++ [k], unlinked := ev.2 }
      if k = 0 then runLoop sqrt hyp (k + 1) st2 rest
      else if inp.featuresOk then
        match comparePair sqrt hyp inp with
        | .appended v h =>
          runLoop sqrt hyp (k + 1)
            { st2 with vList := st2.vList ++ [v], hList := st2.hList ++ [h] }
            rest
        | .skipped _ => runLoop sqrt hyp (k + 1) st2 rest
        | .fatal e => (st2, some e)
      else ({ st with deque := ev.1 ++ [k], unlinked := ev.2 }, some .cvError)
    else ({ st with deque := ev.1, unlinked := ev.2 }, some .captureError)

/-- Decimal digits of a natural number, most significant first (the fuel
argument bounds the recursion; natDigits below supplies enough). -/
def natDigitsGo : ℕ → ℕ → List Char
  | 0, _ => []
  | fuel + 1, n =>
    if n < 10 then [Nat.digitChar n]
    else natDigitsGo fuel (n / 10) ++ [Nat.digitChar (n % 10)]

/-- Decimal digits of a natural number, most significant first. -/
def natDigits (n : ℕ) : List Char := natDigitsGo (n + 1) n

/-- Four zero-padded decimal digits of a number below 10000. -/
def digit4 (r : ℕ) : List Char :=
  [Nat.digitChar (r / 1000 % 10), Nat.digitChar (r / 100 % 10),
    Nat.digitChar (r / 10 % 10), Nat.digitChar (r % 10)]

/-- Fixed-point rendering with 4 fractional digits, the model of the
Python format string used at line 130 of main for nonnegative values:
round to the nearest multiple of 1/10000, then print the integer part, a
decimal point, and the four fractional digits. -/
def fmt4 (q : ℚ) : String :=
  let n : ℕ := (round (q * 10000)).toNat
  ⟨natDigits (n / 10000) ++ '.' :: digit4 (n % 10000)⟩

/-- The aggregation and formatting of main (lines 123-133): the arithmetic
mean of the velocity samples when there is at least one, the fixed
fallback 7667.7 m/s otherwise, converted to km/s and rendered with 4
fractional digits. -/
def finalize (v_list : List ℚ) : String :=
  let estimate_mps : ℚ :=
    if 0 < v_list.length then v_list.sum / (v_list.length : ℚ)
    else 76677 / 10
  fmt4 (estimate_mps / 1000)

deriving instance DecidableEq for Except

/-- The observable outcome of one run of main: the accumulated lists, the
retained and deleted frames, whether cam.close() was reached (line 121),
the content written to result.txt (none when an uncaught exception aborts
the run before the write), and the escaped exception if any. -/
structure RunResult where
  vList : List ℚ
  hList : List ℚ
  deque : List ℕ
  unlinked : List ℕ
  cameraClosed : Bool
  output : Option String
  fatal : Option ExcKind
deriving DecidableEq

/-- One whole run of main, parametric in the altitude-history seed
(418000 at line 82) and in the per-iteration external behaviour.  On
normal loop exit the camera is closed and finalize's string is written; an
uncaught exception aborts the run before both. -/
def mainRun (sqrt : ℚ → ℚ) (hyp : ℚ → ℚ → ℚ) (hSeed : ℚ)
    (inputs : List IterInput) : RunResult :=
  let r := runLoop sqrt hyp 0 ⟨[], [hSeed], [], []⟩ inputs
  match r.2 with
  | some e => ⟨r.1.vList, r.1.hList, r.1.deque, r.1.unlinked, false, none,
      some e⟩
  | none => ⟨r.1.vList, r.1.hList, r.1.deque, r.1.unlinked, true,
      some (finalize r.1.vList), none⟩

/-! Helper lemmas. -/

lemma foldl_add_map {α : Type} (f : α → ℚ) :
    ∀ (l : List α) (a : ℚ),
      l.foldl (fun acc c => acc + f c) a = a + (l.map f).sum := by
  intro l
  induction l with
  | nil => intro a; simp
  | cons x xs ih =>
    intro a
    simp only [List.foldl_cons, List.map_cons, List.sum_cons, ih (a + f x)]
    ring

lemma mean_distance_eq_spec (hyp : ℚ → ℚ → ℚ) (c1 c2 : List (ℚ × ℚ)) :
    calculate_mean_distance hyp c1 c2 = meanDisplacementSpec hyp (c1.zip c2) := by
  unfold calculate_mean_distance meanDisplacementSpec
  rcases h : c1.zip c2 with _ | ⟨p, rest⟩
  · simp
  · simp only [foldl_add_map, zero_add, List.length_cons, if_neg,
      List.cons_ne_self]
    rw [if_pos (by simp), if_neg (by simp)]

lemma solveIter_d0 (sqrt : ℚ → ℚ) (dt : ℚ) :
    ∀ n : ℕ, (solveIter sqrt 0 dt n).2 = 400000 ∧
      (0 < n → (solveIter sqrt 0 dt n).1 = calculate_v_from_h sqrt 400000) := by
  intro n
  induction n with
  | zero => exact ⟨rfl, by omega⟩
  | succ n ih =>
    unfold solveIter
    rw [ih.1]
    simp

lemma solveExcIter_d0 (sqrt : ℚ → ℚ) (dt : ℚ) :
    ∀ n : ℕ, solveExcIter sqrt 0 dt (n + 1) =
      .ok (calculate_v_from_h sqrt 400000, 400000) := by
  have h1 : Rconst + (400000 : ℚ) ≠ 0 := by norm_num [Rconst]
  have h2 : ¬ Gconst * Mconst / (Rconst + (400000 : ℚ)) < 0 := by
    norm_num [Gconst, Mconst, Rconst]
  intro n
  induction n with
  | zero =>
    show (match solveExcIter sqrt 0 dt 0 with
      | .error e => Except.error e
      | .ok p => _) = _
    simp [solveExcIter, h1, h2, calculate_v_from_h]
  | succ n ih =>
    show (match solveExcIter sqrt 0 dt (n + 1) with
      | .error e => Except.error e
      | .ok p => _) = _
    rw [ih]
    simp [h1, h2, calculate_v_from_h]

lemma solveExc_d0 (sqrt : ℚ → ℚ) (dt : ℚ) :
    solveExc sqrt 0 dt = .ok (calculate_v_from_h sqrt 400000, 400000) :=
  solveExcIter_d0 sqrt dt 7

lemma comparePair_zero_disp (sqrt : ℚ → ℚ) (hyp : ℚ → ℚ → ℚ)
    (inp : IterInput) (hm : inp.matchOk = true)
    (hd : measuredDistance hyp inp = 0) :
    comparePair sqrt hyp inp =
      .appended (calculate_v_from_h sqrt 400000) 400000 := by
  unfold comparePair
  rw [hm, if_pos rfl, hd, solveExc_d0]

/-! C8: the Correspondence Measurer. -/

/-- C8: for any list of matched correspondences the measured displacement
is the arithmetic mean of the pairwise Euclidean distances, unweighted and
invariant under any reordering of the matches; with zero correspondences
the explicit guard defines the displacement as exactly 0. -/
theorem c8_mean_displacement (hyp : ℚ → ℚ → ℚ)
    (c1 c2 c1' c2' : List (ℚ × ℚ)) :
    calculate_mean_distance hyp c1 c2 = meanDisplacementSpec hyp (c1.zip c2) ∧
    (c1.zip c2 = [] → calculate_mean_distance hyp c1 c2 = 0) ∧
    (List.Perm (c1.zip c2) (c1'.zip c2') →
      calculate_mean_distance hyp c1 c2 = calculate_mean_distance hyp c1' c2') := by
  refine ⟨mean_distance_eq_spec hyp c1 c2, ?_, ?_⟩
  · intro hz
    rw [mean_distance_eq_spec, hz]
    simp [meanDisplacementSpec]
  · intro hp
    rw [mean_distance_eq_spec, mean_distance_eq_spec]
    unfold meanDisplacementSpec
    have hlen := hp.length_eq
    have hsum := (hp.map
      (fun c : (ℚ × ℚ) × (ℚ × ℚ) => hyp (c.1.1 - c.2.1) (c.1.2 - c.2.2))).sum_eq
    rcases h1 : c1.zip c2 with _ | ⟨p, rest⟩
    · rcases h2 : c1'.zip c2' with _ | ⟨q, rest'⟩
      · rfl
      · rw [h1, h2] at hlen; simp at hlen
    · rcases h2 : c1'.zip c2' with _ | ⟨q, rest'⟩
      · rw [h1, h2] at hlen; simp at hlen
      · rw [h1, h2] at hlen hsum
        simp only [if_neg (List.cons_ne_nil p rest),
          if_neg (List.cons_ne_nil q rest'), hsum, hlen]

/-- Witness for c8_mean_displacement at concrete lists, the reordering
hypothesis discharged by computation. -/
theorem c8_mean_displacement_w :
    List.Perm
      (([((1 : ℚ), (2 : ℚ)), ((3 : ℚ), (4 : ℚ))]).zip
        [((0 : ℚ), (0 : ℚ)), ((1 : ℚ), (1 : ℚ))])
      (([((3 : ℚ), (4 : ℚ)), ((1 : ℚ), (2 : ℚ))]).zip
        [((1 : ℚ), (1 : ℚ)), ((0 : ℚ), (0 : ℚ))]) ∧
    calculate_mean_distance (fun x y => x + y)
      [((1 : ℚ), (2 : ℚ)), ((3 : ℚ), (4 : ℚ))]
      [((0 : ℚ), (0 : ℚ)), ((1 : ℚ), (1 : ℚ))] =
    calculate_mean_distance (fun x y => x + y)
      [((3 : ℚ), (4 : ℚ)), ((1 : ℚ), (2 : ℚ))]
      [((1 : ℚ), (1 : ℚ)), ((0 : ℚ), (0 : ℚ))] :=
  ⟨by decide, (c8_mean_displacement (fun x y => x + y) _ _ _ _).2.2 (by decide)⟩

/-! C3: the Height-Velocity Solver performs exactly 8 rounds. -/

lemma solveIter_succ (sqrt : ℚ → ℚ) (d dt : ℚ) (n : ℕ) :
    solveIter sqrt d dt (n + 1) =
      (calculate_v_from_h sqrt (solveIter sqrt d dt n).2,
        if d ≠ 0 then
          calculate_v_from_h sqrt (solveIter sqrt d dt n).2 /
            (dim_sensore_x * d) * d_focale * n_pixel_x * dt
        else (solveIter sqrt d dt n).2) := rfl

lemma solveIter_snd (sqrt : ℚ → ℚ) {d : ℚ} (dt : ℚ) (hd : d ≠ 0) :
    ∀ n : ℕ, (solveIter sqrt d dt n).2 = (specStep sqrt d dt)^[n] 400000 := by
  intro n
  induction n with
  | zero => rfl
  | succ n ih =>
    rw [solveIter_succ]
    show (if d ≠ 0 then
        calculate_v_from_h sqrt (solveIter sqrt d dt n).2 /
          (dim_sensore_x * d) * d_focale * n_pixel_x * dt
      else (solveIter sqrt d dt n).2) = _
    rw [if_pos hd, ih, Function.iterate_succ_apply' (specStep sqrt d dt) n]
    unfold specStep
    ring

lemma solveIter_fst (sqrt : ℚ → ℚ) {d : ℚ} (dt : ℚ) (hd : d ≠ 0) (n : ℕ) :
    (solveIter sqrt d dt (n + 1)).1 =
      calculate_v_from_h sqrt ((specStep sqrt d dt)^[n] 400000) := by
  rw [solveIter_succ]
  show calculate_v_from_h sqrt (solveIter sqrt d dt n).2 = _
  rw [solveIter_snd sqrt dt hd n]

/-- C3: for every displacement sample the solver runs exactly 8 fixed
rounds from seed altitude 400000 with no early exit: with d nonzero the
returned velocity is the orbital-law velocity of the 7-fold iterated
spec round (i.e. the v of the 8th round) and the final altitude is the
8-fold iterate; with d zero every round leaves h at the seed. -/
theorem c3_solver_eight_rounds (sqrt : ℚ → ℚ) (d dt : ℚ) :
    (d ≠ 0 →
      solveV sqrt d dt =
        calculate_v_from_h sqrt ((specStep sqrt d dt)^[7] 400000) ∧
      (solve sqrt d dt).2 = (specStep sqrt d dt)^[8] 400000) ∧
    (d = 0 → solve sqrt d dt = (calculate_v_from_h sqrt 400000, 400000)) := by
  constructor
  · intro hd
    exact ⟨solveIter_fst sqrt dt hd 7, solveIter_snd sqrt dt hd 8⟩
  · intro hd
    subst hd
    have h := solveIter_d0 sqrt dt 8
    exact Prod.ext (h.2 (by omega)) h.1

/-- Witness for c3_solver_eight_rounds with nonzero displacement. -/
theorem c3_solver_eight_rounds_w :
    (1 : ℚ) ≠ 0 ∧
    solveV id 1 1 = calculate_v_from_h id ((specStep id 1 1)^[7] 400000) :=
  ⟨one_ne_zero, ((c3_solver_eight_rounds id 1 1).1 one_ne_zero).1⟩

/-! The acquisition loop: fault isolation machinery. -/

/-- Whether a comparison outcome escapes the loop. -/
def isFatal : StepOut → Bool
  | .fatal _ => true
  | _ => false

/-- An iteration input that cannot abort the run: its capture and its
feature detection succeed and its try block raises no uncaught
exception. -/
def Benign (sqrt : ℚ → ℚ) (hyp : ℚ → ℚ → ℚ) (l : List IterInput) : Prop :=
  ∀ i ∈ l, i.captureOk = true ∧ i.featuresOk = true ∧
    isFatal (comparePair sqrt hyp i) = false

lemma runLoop_benign (sqrt : ℚ → ℚ) (hyp : ℚ → ℚ → ℚ) :
    ∀ (inputs : List IterInput) (k : ℕ) (st : RunState), k ≠ 0 →
      Benign sqrt hyp inputs →
      (runLoop sqrt hyp k st inputs).2 = none ∧
      (runLoop sqrt hyp k st inputs).1.vList =
        st.vList ++ inputs.filterMap (pairSample sqrt hyp) := by
  intro inputs
  induction inputs with
  | nil => intro k st _ _; simp [runLoop]
  | cons inp rest ih =>
    intro k st hk hb
    obtain ⟨hcap, hfeat, hnf⟩ := hb inp (List.mem_cons_self inp rest)
    have hb' : Benign sqrt hyp rest := fun i hi =>
      hb i (List.mem_cons_of_mem inp hi)
    rw [runLoop]
    rw [hcap, if_pos rfl, if_neg hk, hfeat, if_pos rfl]
    cases hc : comparePair sqrt hyp inp with
    | appended v h =>
      have hps : pairSample sqrt hyp inp = some v := by
        rw [pairSample, hc]
      obtain ⟨h1, h2⟩ := ih (k + 1) _ (Nat.succ_ne_zero k) hb'
      refine ⟨h1, ?_⟩
      rw [h2, List.filterMap_cons, hps]
      simp
    | skipped e =>
      have hps : pairSample sqrt hyp inp = none := by
        rw [pairSample, hc]
      obtain ⟨h1, h2⟩ := ih (k + 1) _ (Nat.succ_ne_zero k) hb'
      refine ⟨h1, ?_⟩
      rw [h2, List.filterMap_cons, hps]
    | fatal e =>
      rw [hc] at hnf
      simp [isFatal] at hnf

lemma mainRun_benign (sqrt : ℚ → ℚ) (hyp : ℚ → ℚ → ℚ) (seed : ℚ)
    (i0 : IterInput) (rest : List IterInput)
    (h0 : i0.captureOk = true) (hb : Benign sqrt hyp rest) :
    (mainRun sqrt hyp seed (i0 :: rest)).fatal = none ∧
    (mainRun sqrt hyp seed (i0 :: rest)).vList =
      rest.filterMap (pairSample sqrt hyp) ∧
    (mainRun sqrt hyp seed (i0 :: rest)).cameraClosed = true ∧
    (mainRun sqrt hyp seed (i0 :: rest)).output =
      some (finalize (rest.filterMap (pairSample sqrt hyp))) := by
  have hrun : runLoop sqrt hyp 0 ⟨[], [seed], [], []⟩ (i0 :: rest) =
      runLoop sqrt hyp 1
        ⟨[], [seed], (evictStep [] []).1 ++ [0], (evictStep [] []).2⟩
        rest := by
    rw [runLoop, h0, if_pos rfl, if_pos rfl]
  obtain ⟨h1, h2⟩ := runLoop_benign sqrt hyp rest 1
    ⟨[], [seed], (evictStep [] []).1 ++ [0], (evictStep [] []).2⟩
    one_ne_zero hb
  unfold mainRun
  rw [hrun]
  rcases hr : runLoop sqrt hyp 1
      ⟨[], [seed], (evictStep [] []).1 ++ [0], (evictStep [] []).2⟩ rest
    with ⟨st, e⟩
  rw [hr] at h1 h2
  simp only at h1 h2
  subst h1
  simp only [List.nil_append] at h2
  simp [h2]

/-! C1: zero displacement does not skip the sample (corrected). -/

/-- Counterexample to C1: a frame pair producing zero correspondences has
measured mean displacement exactly 0, yet the comparison appends a
velocity sample (the orbital velocity at the 400000 m seed) instead of
skipping the pair. -/
theorem c1_counterexample :
    measuredDistance (fun _ _ => 37) ⟨true, true, true, [], 1⟩ = 0 ∧
    comparePair (fun _ => 7668) (fun _ _ => 37) ⟨true, true, true, [], 1⟩ =
      .appended 7668 400000 := by
  refine ⟨rfl, ?_⟩
  rw [comparePair_zero_disp (fun _ => 7668) (fun _ _ => 37)
    ⟨true, true, true, [], 1⟩ rfl rfl]
  rfl

/-- C1 as amended: for every successfully matched frame pair whose mean
displacement is 0, the solver still runs and the comparison appends the
velocity sqrt(G*M/(R+400000)) together with the unchanged seed altitude;
the zero-displacement case is neither skipped nor a fault. -/
theorem c1_amended_zero_disp_appends (sqrt : ℚ → ℚ) (hyp : ℚ → ℚ → ℚ)
    (inp : IterInput) (hm : inp.matchOk = true)
    (hd : measuredDistance hyp inp = 0) :
    comparePair sqrt hyp inp =
      .appended (calculate_v_from_h sqrt 400000) 400000 :=
  comparePair_zero_disp sqrt hyp inp hm hd

/-- Witness for c1_amended_zero_disp_appends. -/
theorem c1_amended_zero_disp_appends_w :
    (⟨true, true, true, [], 3⟩ : IterInput).matchOk = true ∧
    measuredDistance (fun _ _ => 0) ⟨true, true, true, [], 3⟩ = 0 ∧
    comparePair (fun _ => 5) (fun _ _ => 0) ⟨true, true, true, [], 3⟩ =
      .appended (calculate_v_from_h (fun _ => 5) 400000) 400000 :=
  ⟨rfl, rfl,
    c1_amended_zero_disp_appends (fun _ => 5) (fun _ _ => 0) _ rfl rfl⟩

/-! C9: the constant velocity sample of a zero-displacement pair. -/

/-- C9: a frame pair with zero mean displacement contributes the velocity
sqrt(G*M/(R+400000)), the orbital speed at the fixed 400000 m seed: it is
independent of the elapsed time, a run containing such a pair records
exactly that sample, and the sample enters the final estimate through
finalize. -/
theorem c9_zero_disp_constant_velocity (sqrt : ℚ → ℚ) (hyp : ℚ → ℚ → ℚ)
    (seed dt dt' : ℚ) (i0 : IterInput)
    (h0 : i0.captureOk = true) (hh : hyp 0 0 = 0) :
    solveV sqrt 0 dt = calculate_v_from_h sqrt 400000 ∧
    solveV sqrt 0 dt = solveV sqrt 0 dt' ∧
    (mainRun sqrt hyp seed
        [i0, ⟨true, true, true, [((5, 5), (5, 5))], dt⟩]).vList =
      [calculate_v_from_h sqrt 400000] ∧
    (mainRun sqrt hyp seed
        [i0, ⟨true, true, true, [((5, 5), (5, 5))], dt⟩]).output =
      some (finalize [calculate_v_from_h sqrt 400000]) := by
  have hv : solveV sqrt 0 dt = calculate_v_from_h sqrt 400000 :=
    (solveIter_d0 sqrt dt 8).2 (by omega)
  have hv' : solveV sqrt 0 dt' = calculate_v_from_h sqrt 400000 :=
    (solveIter_d0 sqrt dt' 8).2 (by omega)
  have hmd : measuredDistance hyp ⟨true, true, true, [((5, 5), (5, 5))], dt⟩
      = 0 := by
    simp [measuredDistance, find_matching_coordinates, calculate_mean_distance]
    norm_num [hh]
  have hcp : comparePair sqrt hyp ⟨true, true, true, [((5, 5), (5, 5))], dt⟩ =
      .appended (calculate_v_from_h sqrt 400000) 400000 :=
    comparePair_zero_disp sqrt hyp _ rfl hmd
  have hb : Benign sqrt hyp [⟨true, true, true, [((5, 5), (5, 5))], dt⟩] := by
    intro i hi
    rcases List.mem_singleton.mp hi with h
    subst h
    exact ⟨rfl, rfl, by rw [hcp]; rfl⟩
  obtain ⟨h1, h2, h3, h4⟩ := mainRun_benign sqrt hyp seed i0 _ h0 hb
  have hfm : List.filterMap (pairSample sqrt hyp)
      [⟨true, true, true, [((5, 5), (5, 5))], dt⟩] =
      [calculate_v_from_h sqrt 400000] := by
    rw [List.filterMap_cons]
    have : pairSample sqrt hyp ⟨true, true, true, [((5, 5), (5, 5))], dt⟩ =
        some (calculate_v_from_h sqrt 400000) := by
      rw [pairSample, hcp]
    rw [this]
    rfl
  rw [hfm] at h2 h4
  exact ⟨hv, hv.trans hv'.symm, h2, h4⟩

/-- Witness for c9_zero_disp_constant_velocity. -/
theorem c9_zero_disp_constant_velocity_w :
    (⟨true, true, true, [], 1⟩ : IterInput).captureOk = true ∧
    (fun x y => x + y) (0 : ℚ) (0 : ℚ) = 0 ∧
    (mainRun id (fun x y => x + y) 418000
        [⟨true, true, true, [], 1⟩,
          ⟨true, true, true, [((5, 5), (5, 5))], 2⟩]).vList =
      [calculate_v_from_h id 400000] :=
  ⟨rfl, by norm_num,
    (c9_zero_disp_constant_velocity id (fun x y => x + y) 418000 2 3
      ⟨true, true, true, [], 1⟩ rfl (by norm_num)).2.2.1⟩

/-! C2: per-iteration fault isolation (corrected). -/

/-- Counterexample to C2: a capture failure at iteration 1 — and likewise
a feature-detection failure, which happens outside the try block — aborts
the whole acquisition loop, so the later frame pair records no sample and
the camera is never closed; such failures are not caught as non-fatal. -/
theorem c2_counterexample :
    (mainRun (fun _ => 1000) (fun x y => x + y) 418000
      [⟨true, true, true, [], 1⟩, ⟨false, true, true, [], 1⟩,
        ⟨true, true, true, [], 1⟩]).fatal = some .captureError ∧
    (mainRun (fun _ => 1000) (fun x y => x + y) 418000
      [⟨true, true, true, [], 1⟩, ⟨false, true, true, [], 1⟩,
        ⟨true, true, true, [], 1⟩]).vList = [] ∧
    (mainRun (fun _ => 1000) (fun x y => x + y) 418000
      [⟨true, true, true, [], 1⟩, ⟨true, false, true, [], 1⟩,
        ⟨true, true, true, [], 1⟩]).fatal = some .cvError ∧
    (mainRun (fun _ => 1000) (fun x y => x + y) 418000
      [⟨true, true, true, [], 1⟩, ⟨true, false, true, [], 1⟩,
        ⟨true, true, true, [], 1⟩]).vList = [] :=
  ⟨rfl, rfl, rfl, rfl⟩

/-- C2 as amended: only failures raised inside the per-iteration try
block — descriptor matching (cv2.error) and the solver — are caught as
non-fatal: a single FeatureMatchFailure at some iteration is passed over
and every other pair's sample is still recorded.  (Capture and
feature-detection failures, by contrast, abort the loop, as the
counterexample shows.) -/
theorem c2_amended_try_block_isolation (sqrt : ℚ → ℚ) (hyp : ℚ → ℚ → ℚ)
    (seed : ℚ) (i0 mf : IterInput) (A B : List IterInput)
    (h0 : i0.captureOk = true)
    (hA : Benign sqrt hyp A) (hB : Benign sqrt hyp B)
    (hm1 : mf.captureOk = true) (hm2 : mf.featuresOk = true)
    (hm3 : mf.matchOk = false) :
    (mainRun sqrt hyp seed (i0 :: (A ++ mf :: B))).fatal = none ∧
    (mainRun sqrt hyp seed (i0 :: (A ++ mf :: B))).vList =
      A.filterMap (pairSample sqrt hyp) ++
        B.filterMap (pairSample sqrt hyp) ∧
    comparePair sqrt hyp mf = .skipped .cvError := by
  have hcm : comparePair sqrt hyp mf = .skipped .cvError := by
    rw [comparePair, hm3]
    rfl
  have hbig : Benign sqrt hyp (A ++ mf :: B) := by
    intro i hi
    rcases List.mem_append.mp hi with h | h
    · exact hA i h
    · rcases List.mem_cons.mp h with h | h
      · subst h
        exact ⟨hm1, hm2, by rw [hcm]; rfl⟩
      · exact hB i h
  obtain ⟨h1, h2, _, _⟩ := mainRun_benign sqrt hyp seed i0 _ h0 hbig
  refine ⟨h1, ?_, hcm⟩
  rw [h2, List.filterMap_append, List.filterMap_cons]
  have hps : pairSample sqrt hyp mf = none := by rw [pairSample, hcm]
  rw [hps]

/-- Witness for c2_amended_try_block_isolation: a run of four iterations
whose third has a matching failure still records the two other pairs'
samples. -/
theorem c2_amended_try_block_isolation_w :
    Benign (fun _ => 1000) (fun x y => x + y) [⟨true, true, true, [], 1⟩] ∧
    (mainRun (fun _ => 1000) (fun x y => x + y) 418000
      (⟨true, true, true, [], 1⟩ ::
        ([⟨true, true, true, [], 1⟩] ++ ⟨true, true, false, [], 1⟩ ::
          [⟨true, true, true, [], 1⟩]))).vList =
      List.filterMap (pairSample (fun _ => 1000) (fun x y => x + y))
          [⟨true, true, true, [], 1⟩] ++
        List.filterMap (pairSample (fun _ => 1000) (fun x y => x + y))
          [⟨true, true, true, [], 1⟩] := by
  have hb : Benign (fun _ => 1000) (fun x y => x + y)
      [⟨true, true, true, [], 1⟩] := by
    intro i hi
    rcases List.mem_singleton.mp hi with h
    subst h
    refine ⟨rfl, rfl, ?_⟩
    rw [comparePair_zero_disp (fun _ => 1000) (fun x y => x + y)
      ⟨true, true, true, [], 1⟩ rfl rfl]
    rfl
  exact ⟨hb,
    (c2_amended_try_block_isolation (fun _ => 1000) (fun x y => x + y) 418000
      ⟨true, true, true, [], 1⟩ ⟨true, true, false, [], 1⟩
      [⟨true, true, true, [], 1⟩] [⟨true, true, true, [], 1⟩]
      rfl hb hb rfl rfl rfl).2.1⟩

/-! C7: the camera handle is not released on a fatal exit (corrected). -/

/-- Counterexample to C7: a run aborted by a capture fault never reaches
cam.close(), so the capture resource is not released on that exit path. -/
theorem c7_counterexample :
    (mainRun (fun _ => 0) (fun _ _ => 0) 418000
      [⟨false, true, true, [], 0⟩]).cameraClosed = false ∧
    (mainRun (fun _ => 0) (fun _ _ => 0) 418000
      [⟨false, true, true, [], 0⟩]).fatal = some .captureError :=
  ⟨rfl, rfl⟩

/-- C7 as amended: cam.close() is reached exactly on normal loop
termination — the camera is closed iff no uncaught exception escaped the
loop; there is no scoped acquisition performing the release on the fatal
path. -/
theorem c7_amended_close_iff_normal_exit (sqrt : ℚ → ℚ) (hyp : ℚ → ℚ → ℚ)
    (seed : ℚ) (inputs : List IterInput) :
    (mainRun sqrt hyp seed inputs).cameraClosed = true ↔
      (mainRun sqrt hyp seed inputs).fatal = none := by
  unfold mainRun
  rcases hr : runLoop sqrt hyp 0 ⟨[], [seed], [], []⟩ inputs with ⟨st, e⟩
  cases e <;> simp

/-! C10: the altitude-history seed does not influence the result. -/

lemma runLoop_hList_indep (sqrt : ℚ → ℚ) (hyp : ℚ → ℚ → ℚ) :
    ∀ (inputs : List IterInput) (k : ℕ) (vl : List ℚ) (hl hl' : List ℚ)
      (dq ul : List ℕ),
      (runLoop sqrt hyp k ⟨vl, hl, dq, ul⟩ inputs).1.vList =
        (runLoop sqrt hyp k ⟨vl, hl', dq, ul⟩ inputs).1.vList ∧
      (runLoop sqrt hyp k ⟨vl, hl, dq, ul⟩ inputs).2 =
        (runLoop sqrt hyp k ⟨vl, hl', dq, ul⟩ inputs).2 := by
  intro inputs
  induction inputs with
  | nil => intro k vl hl hl' dq ul; exact ⟨rfl, rfl⟩
  | cons inp rest ih =>
    intro k vl hl hl' dq ul
    rw [runLoop, runLoop]
    cases hcap : inp.captureOk with
    | false => exact ⟨rfl, rfl⟩
    | true =>
      by_cases hk : k = 0
      · subst hk
        exact ih 1 vl hl hl' ((evictStep dq ul).1 ++ [0]) (evictStep dq ul).2
      · rw [if_neg hk, if_neg hk]
        cases hfeat : inp.featuresOk with
        | false => exact ⟨rfl, rfl⟩
        | true =>
          cases hcp : comparePair sqrt hyp inp with
          | appended v h =>
            exact ih (k + 1) (vl ++ [v]) (hl ++ [h]) (hl' ++ [h])
              ((evictStep dq ul).1 ++ [k]) (evictStep dq ul).2
          | skipped e =>
            exact ih (k + 1) vl hl hl'
              ((evictStep dq ul).1 ++ [k]) (evictStep dq ul).2
          | fatal e => exact ⟨rfl, rfl⟩

/-- C10: the final written estimate depends only on the velocity samples:
two runs identical in everything but the altitude-history seed (418000 in
the source) produce the same output and the same sample list, and the
per-pair solver always starts from its own 400000 seed instead. -/
theorem c10_seed_noninterference (sqrt : ℚ → ℚ) (hyp : ℚ → ℚ → ℚ)
    (s1 s2 : ℚ) (inputs : List IterInput) :
    (mainRun sqrt hyp s1 inputs).output = (mainRun sqrt hyp s2 inputs).output ∧
    (mainRun sqrt hyp s1 inputs).vList = (mainRun sqrt hyp s2 inputs).vList ∧
    ∀ d dt : ℚ, (solveIter sqrt d dt 0).2 = 400000 := by
  obtain ⟨hv, hf⟩ := runLoop_hList_indep sqrt hyp inputs 0 [] [s1] [s2] [] []
  unfold mainRun
  rcases h1 : runLoop sqrt hyp 0 ⟨[], [s1], [], []⟩ inputs with ⟨st1, e1⟩
  rcases h2 : runLoop sqrt hyp 0 ⟨[], [s2], [], []⟩ inputs with ⟨st2, e2⟩
  rw [h1, h2] at hv hf
  simp only at hv hf
  subst hf
  cases e1 <;> simp [hv] <;> exact fun d dt => rfl

/-! C5: the bounded frame buffer. -/

lemma retainAll_append_singleton (l : List ℕ) (a : ℕ) :
    retainAll (l ++ [a]) = retainStep (retainAll l) a := by
  unfold retainAll
  rw [List.foldl_append]
  rfl

lemma retainAll_eq : ∀ l : List ℕ,
    retainAll l = (l.drop (l.length - 42), l.take (l.length - 42)) := by
  intro l
  induction l using List.reverseRecOn with
  | nil => rfl
  | append_singleton l a ih =>
    rw [retainAll_append_singleton, ih]
    unfold retainStep evictStep
    simp only [List.length_drop]
    by_cases h42 : 42 ≤ l.length
    · rw [if_pos (by omega)]
      have hle : l.length - 41 ≤ l.length := by omega
      have h1 : (l.drop (l.length - 42)).drop 1 = l.drop (l.length - 41) := by
        rw [List.drop_drop]
        congr 1
        omega
      have h2 : l.take (l.length - 42) ++ (l.drop (l.length - 42)).take 1 =
          l.take (l.length - 41) := by
        rw [← List.take_add]
        congr 1
        omega
      have h3 : (l ++ [a]).length - 42 = l.length - 41 := by
        simp only [List.length_append, List.length_singleton]
        omega
      rw [h1, h2, h3, List.drop_append_of_le_length hle,
        List.take_append_of_le_length hle]
    · rw [if_neg (by omega)]
      have h0 : l.length - 42 = 0 := by omega
      have h0' : (l ++ [a]).length - 42 = 0 := by
        simp only [List.length_append, List.length_singleton]
        omega
      rw [h0, h0']
      simp

/-- C5: the frame buffer never holds more than 42 frames; after retaining
N > 42 frames exactly N - 42 eviction-deletions have occurred, the deleted
frames are exactly the N - 42 oldest ones in order, and the buffer holds
exactly the 42 most recently retained frames in retention order; the frame
immediately preceding the newest — the one the next comparison needs — is
always still retained and never among the deleted. -/
theorem c5_frame_buffer :
    (∀ N : ℕ, 42 < N →
      (retainAll (List.range N)).1 = (List.range N).drop (N - 42) ∧
      (retainAll (List.range N)).2 = List.range (N - 42) ∧
      ((retainAll (List.range N)).1).length = 42) ∧
    (∀ M : ℕ, ((retainAll (List.range M)).1).length ≤ 42) ∧
    (∀ k : ℕ, 1 ≤ k →
      (k - 1) ∈ (retainAll (List.range (k + 1))).1 ∧
      (k - 1) ∉ (retainAll (List.range (k + 1))).2) := by
  refine ⟨?_, ?_, ?_⟩
  · intro N hN
    rw [retainAll_eq, List.length_range]
    refine ⟨rfl, ?_, ?_⟩
    · rw [List.take_range, inf_eq_min, min_eq_left (by omega)]
    · rw [List.length_drop, List.length_range]
      omega
  · intro M
    rw [retainAll_eq, List.length_drop, List.length_range]
    omega
  · intro k hk
    rw [retainAll_eq, List.length_range]
    constructor
    · have hk1 : k - 1 + 1 = k := by omega
      have h2 : List.range k = List.range (k - 1) ++ [k - 1] := by
        conv_lhs => rw [← hk1, List.range_succ]
      have hsplit : List.range (k + 1) =
          (List.range (k - 1) ++ [k - 1]) ++ [k] := by
        rw [List.range_succ, h2]
      rw [hsplit]
      rw [List.drop_append_of_le_length
        (by simp only [List.length_append, List.length_range,
          List.length_singleton]; omega)]
      rw [List.drop_append_of_le_length
        (by rw [List.length_range]; omega)]
      simp
    · rw [List.take_range]
      intro hmem
      rw [List.mem_range, inf_eq_min] at hmem
      omega

/-- Witness for c5_frame_buffer at a 45-frame retention sequence. -/
theorem c5_frame_buffer_w :
    (42 < 45 ∧ (retainAll (List.range 45)).2 = List.range (45 - 42)) ∧
    (1 ≤ 5 ∧ (5 - 1) ∈ (retainAll (List.range (5 + 1))).1) :=
  ⟨⟨by norm_num, (c5_frame_buffer.1 45 (by norm_num)).2.1⟩,
    ⟨by norm_num, (c5_frame_buffer.2.2 5 (by norm_num)).1⟩⟩

/-! C4: the aggregator. -/

lemma digitChar_isDigit {m : ℕ} (h : m < 10) :
    (Nat.digitChar m).isDigit = true := by
  interval_cases m <;> decide

lemma natDigitsGo_digits : ∀ (fuel n : ℕ), ∀ c ∈ natDigitsGo fuel n,
    c.isDigit = true := by
  intro fuel
  induction fuel with
  | zero => intro n c hc; simp [natDigitsGo] at hc
  | succ f ih =>
    intro n c hc
    rw [natDigitsGo] at hc
    by_cases h : n < 10
    · rw [if_pos h] at hc
      have hce := List.mem_singleton.mp hc
      subst hce
      exact digitChar_isDigit h
    · rw [if_neg h] at hc
      rcases List.mem_append.mp hc with h1 | h1
      · exact ih (n / 10) c h1
      · have hce := List.mem_singleton.mp h1
        subst hce
        exact digitChar_isDigit (Nat.mod_lt _ (by norm_num))

lemma digit4_digits (r : ℕ) : ∀ c ∈ digit4 r, c.isDigit = true := by
  intro c hc
  simp only [digit4, List.mem_cons, List.not_mem_nil, or_false] at hc
  rcases hc with h | h | h | h <;> subst h <;>
    exact digitChar_isDigit (Nat.mod_lt _ (by norm_num))

lemma finalize_nonempty (l : List ℚ) (hl : l ≠ []) :
    finalize l = fmt4 (l.sum / (l.length : ℚ) / 1000) := by
  unfold finalize
  rw [if_pos (List.length_pos.mpr hl)]

/-- C4: finalize of a non-empty sample sequence is the arithmetic mean of
the samples divided by 1000, rendered with exactly 4 digits after the
single decimal point; finalize of the empty sequence is the fixed fallback
text 7.6677 (7667.7 m/s in km/s); and whenever the loop terminates
normally the written file content is exactly finalize of the sample
list. -/
theorem c4_finalize_aggregator :
    finalize [] = "7.6677" ∧
    (∀ l : List ℚ, l ≠ [] →
      finalize l = fmt4 (l.sum / (l.length : ℚ) / 1000)) ∧
    finalize [7000] = "7.0000" ∧
    finalize [7000, 8000] = "7.5000" ∧
    (∀ q : ℚ, ∃ a b : List Char, (fmt4 q).data = a ++ '.' :: b ∧
      b.length = 4 ∧ (∀ c ∈ a, c.isDigit = true) ∧
      (∀ c ∈ b, c.isDigit = true)) ∧
    (∀ (sqrt : ℚ → ℚ) (hyp : ℚ → ℚ → ℚ) (seed : ℚ)
      (inputs : List IterInput),
      (mainRun sqrt hyp seed inputs).fatal = none →
      (mainRun sqrt hyp seed inputs).output =
        some (finalize (mainRun sqrt hyp seed inputs).vList)) := by
  refine ⟨?_, finalize_nonempty, ?_, ?_, ?_, ?_⟩
  · show fmt4 (((76677 : ℚ) / 10) / 1000) = "7.6677"
    have h : round ((((76677 : ℚ) / 10) / 1000) * 10000) = 76677 := by
      rw [round_eq]
      norm_num
    unfold fmt4
    rw [h]
    decide
  · rw [finalize_nonempty [7000] (by simp)]
    have harg : [(7000 : ℚ)].sum / (([(7000 : ℚ)].length : ℕ) : ℚ) / 1000
        = 7 := by
      norm_num
    rw [harg]
    have h : round ((7 : ℚ) * 10000) = 70000 := by
      rw [round_eq]
      norm_num
    unfold fmt4
    rw [h]
    decide
  · rw [finalize_nonempty [7000, 8000] (by simp)]
    have harg : ([(7000 : ℚ), 8000].sum /
        (([(7000 : ℚ), 8000].length : ℕ) : ℚ)) / 1000 = 15 / 2 := by
      norm_num
    rw [harg]
    have h : round (((15 : ℚ) / 2) * 10000) = 75000 := by
      rw [round_eq]
      norm_num
    unfold fmt4
    rw [h]
    decide
  · intro q
    exact ⟨natDigits ((round (q * 10000)).toNat / 10000),
      digit4 ((round (q * 10000)).toNat % 10000), rfl, rfl,
      natDigitsGo_digits _ _, digit4_digits _⟩
  · intro sqrt hyp seed inputs hf
    unfold mainRun at hf ⊢
    rcases hr : runLoop sqrt hyp 0 ⟨[], [seed], [], []⟩ inputs with ⟨st, e⟩
    rw [hr] at hf
    cases e
    · simp
    · simp at hf

/-- Witness for c4_finalize_aggregator at a singleton sample list. -/
theorem c4_finalize_aggregator_w :
    ([(5 : ℚ)] ≠ []) ∧
    finalize [(5 : ℚ)] =
      fmt4 ([(5 : ℚ)].sum / (([(5 : ℚ)].length : ℕ) : ℚ) / 1000) :=
  ⟨by simp, c4_finalize_aggregator.2.1 [5] (by simp)⟩

/-! C6: arithmetic faults in the solver (corrected). -/

lemma solveExcIter_ok_of_nonneg (sqrt : ℚ → ℚ) {d dt : ℚ}
    (hs : ∀ x, 0 ≤ x → 0 ≤ sqrt x) (hd : 0 ≤ d) (hdt : 0 ≤ dt) :
    ∀ n : ℕ, solveExcIter sqrt d dt n = .ok (solveIter sqrt d dt n) ∧
      0 ≤ (solveIter sqrt d dt n).2 := by
  have hR : (0 : ℚ) < Rconst := by norm_num [Rconst]
  have hGM : (0 : ℚ) < Gconst * Mconst := by norm_num [Gconst, Mconst]
  have hsx : (0 : ℚ) < dim_sensore_x := by norm_num [dim_sensore_x]
  have hfo : (0 : ℚ) < d_focale := by norm_num [d_focale]
  have hnp : (0 : ℚ) < n_pixel_x := by norm_num [n_pixel_x]
  intro n
  induction n with
  | zero => exact ⟨rfl, by norm_num [solveIter]⟩
  | succ n ih =>
    obtain ⟨h1, h2⟩ := ih
    have hRh : 0 < Rconst + (solveIter sqrt d dt n).2 :=
      add_pos_of_pos_of_nonneg hR h2
    have hRh' : Rconst + (solveIter sqrt d dt n).2 ≠ 0 := ne_of_gt hRh
    have harg : 0 ≤ Gconst * Mconst / (Rconst + (solveIter sqrt d dt n).2) :=
      le_of_lt (div_pos hGM hRh)
    have harg' :
        ¬ Gconst * Mconst / (Rconst + (solveIter sqrt d dt n).2) < 0 :=
      not_lt.mpr harg
    have hv : 0 ≤ sqrt (Gconst * Mconst /
        (Rconst + (solveIter sqrt d dt n).2)) := hs _ harg
    by_cases hd0 : d ≠ 0
    · have hdpos : 0 < d := lt_of_le_of_ne hd (Ne.symm hd0)
      have hsd : dim_sensore_x * d ≠ 0 := ne_of_gt (mul_pos hsx hdpos)
      constructor
      · show (match solveExcIter sqrt d dt n with
          | .error e => Except.error e
          | .ok p =>
            if Rconst + p.2 = 0 then Except.error ExcKind.zeroDivisionError
            else if Gconst * Mconst / (Rconst + p.2) < 0 then
              Except.error ExcKind.valueError
            else
              if d ≠ 0 then
                if dim_sensore_x * d = 0 then
                  Except.error ExcKind.zeroDivisionError
                else Except.ok (sqrt (Gconst * Mconst / (Rconst + p.2)),
                  sqrt (Gconst * Mconst / (Rconst + p.2)) /
                    (dim_sensore_x * d) * d_focale * n_pixel_x * dt)
              else Except.ok (sqrt (Gconst * Mconst / (Rconst + p.2)), p.2))
            = _
        rw [h1]
        dsimp only
        rw [if_neg hRh', if_neg harg', if_pos hd0, if_neg hsd,
          solveIter_succ, if_pos hd0]
        rfl
      · rw [solveIter_succ]
        show 0 ≤ (if d ≠ 0 then
            calculate_v_from_h sqrt (solveIter sqrt d dt n).2 /
              (dim_sensore_x * d) * d_focale * n_pixel_x * dt
          else (solveIter sqrt d dt n).2)
        rw [if_pos hd0]
        exact mul_nonneg (mul_nonneg (mul_nonneg
          (div_nonneg hv (le_of_lt (mul_pos hsx hdpos)))
          (le_of_lt hfo)) (le_of_lt hnp)) hdt
    · rw [not_not] at hd0
      constructor
      · show (match solveExcIter sqrt d dt n with
          | .error e => Except.error e
          | .ok p =>
            if Rconst + p.2 = 0 then Except.error ExcKind.zeroDivisionError
            else if Gconst * Mconst / (Rconst + p.2) < 0 then
              Except.error ExcKind.valueError
            else
              if d ≠ 0 then
                if dim_sensore_x * d = 0 then
                  Except.error ExcKind.zeroDivisionError
                else Except.ok (sqrt (Gconst * Mconst / (Rconst + p.2)),
                  sqrt (Gconst * Mconst / (Rconst + p.2)) /
                    (dim_sensore_x * d) * d_focale * n_pixel_x * dt)
              else Except.ok (sqrt (Gconst * Mconst / (Rconst + p.2)), p.2))
            = _
        rw [h1]
        dsimp only
        rw [if_neg hRh', if_neg harg', if_neg (by simp [hd0]),
          solveIter_succ, if_neg (by simp [hd0])]
        rfl
      · rw [solveIter_succ]
        show 0 ≤ (if d ≠ 0 then
            calculate_v_from_h sqrt (solveIter sqrt d dt n).2 /
              (dim_sensore_x * d) * d_focale * n_pixel_x * dt
          else (solveIter sqrt d dt n).2)
        rw [if_neg (by simp [hd0])]
        exact h2

/-- C6 as amended: ZeroDivisionError is in the caught set of the except
clause (so a division-by-zero inside the try block is converted to a
skip), but ValueError — the kind a math.sqrt domain error raises — is not
caught; and for nonnegative displacement, elapsed time, and square root
(always the case in a real run) the solver raises no arithmetic fault at
all and returns the pure 8-round result. -/
theorem c6_amended_fault_handling :
    caughtByLoop .zeroDivisionError = true ∧
    caughtByLoop .valueError = false ∧
    (∀ (sqrt : ℚ → ℚ) (d dt : ℚ), (∀ x, 0 ≤ x → 0 ≤ sqrt x) →
      0 ≤ d → 0 ≤ dt → solveExc sqrt d dt = .ok (solve sqrt d dt)) :=
  ⟨rfl, rfl, fun sqrt d dt hs hd hdt =>
    (solveExcIter_ok_of_nonneg sqrt hs hd hdt 8).1⟩

/-- Witness for c6_amended_fault_handling. -/
theorem c6_amended_fault_handling_w :
    (∀ x : ℚ, 0 ≤ x → 0 ≤ id x) ∧ (0 : ℚ) ≤ 1 ∧ (0 : ℚ) ≤ 2 ∧
    solveExc id 1 2 = .ok (solve id 1 2) :=
  ⟨fun _ hx => hx, zero_le_one, by norm_num,
    c6_amended_fault_handling.2.2 id 1 2 (fun _ hx => hx) zero_le_one
      (by norm_num)⟩

lemma solveExcIter_error_le (sqrt : ℚ → ℚ) (d dt : ℚ) (e : ExcKind)
    {n : ℕ} (h : solveExcIter sqrt d dt n = .error e) :
    ∀ m : ℕ, n ≤ m → solveExcIter sqrt d dt m = .error e := by
  intro m
  induction m with
  | zero =>
    intro hm
    have hn : n = 0 := by omega
    subst hn
    exact h
  | succ m ih =>
    intro hm
    by_cases hn : n = m + 1
    · subst hn
      exact h
    · have hmm := ih (by omega)
      show (match solveExcIter sqrt d dt m with
        | .error e => Except.error e
        | .ok p =>
          if Rconst + p.2 = 0 then Except.error ExcKind.zeroDivisionError
          else if Gconst * Mconst / (Rconst + p.2) < 0 then
            Except.error ExcKind.valueError
          else
            if d ≠ 0 then
              if dim_sensore_x * d = 0 then
                Except.error ExcKind.zeroDivisionError
              else Except.ok (sqrt (Gconst * Mconst / (Rconst + p.2)),
                sqrt (Gconst * Mconst / (Rconst + p.2)) /
                  (dim_sensore_x * d) * d_focale * n_pixel_x * dt)
            else Except.ok (sqrt (Gconst * Mconst / (Rconst + p.2)), p.2))
          = _
      rw [hmm]

lemma solveExcIter_step_ok (sqrt : ℚ → ℚ) (d dt : ℚ) (n : ℕ) (v h : ℚ)
    (hprev : solveExcIter sqrt d dt n = .ok (v, h))
    (h1 : Rconst + h ≠ 0) (h2 : ¬ Gconst * Mconst / (Rconst + h) < 0)
    (hd : d ≠ 0) (h3 : dim_sensore_x * d ≠ 0) :
    solveExcIter sqrt d dt (n + 1) =
      .ok (sqrt (Gconst * Mconst / (Rconst + h)),
        sqrt (Gconst * Mconst / (Rconst + h)) / (dim_sensore_x * d) *
          d_focale * n_pixel_x * dt) := by
  show (match solveExcIter sqrt d dt n with
    | .error e => Except.error e
    | .ok p =>
      if Rconst + p.2 = 0 then Except.error ExcKind.zeroDivisionError
      else if Gconst * Mconst / (Rconst + p.2) < 0 then
        Except.error ExcKind.valueError
      else
        if d ≠ 0 then
          if dim_sensore_x * d = 0 then
            Except.error ExcKind.zeroDivisionError
          else Except.ok (sqrt (Gconst * Mconst / (Rconst + p.2)),
            sqrt (Gconst * Mconst / (Rconst + p.2)) /
              (dim_sensore_x * d) * d_focale * n_pixel_x * dt)
        else Except.ok (sqrt (Gconst * Mconst / (Rconst + p.2)), p.2))
      = _
  rw [hprev]
  dsimp only
  rw [if_neg h1, if_neg h2, if_pos hd, if_neg h3]

lemma solveExcIter_step_domain_error (sqrt : ℚ → ℚ) (d dt : ℚ) (n : ℕ)
    (v h : ℚ) (hprev : solveExcIter sqrt d dt n = .ok (v, h))
    (h1 : Rconst + h ≠ 0) (h2 : Gconst * Mconst / (Rconst + h) < 0) :
    solveExcIter sqrt d dt (n + 1) = .error .valueError := by
  show (match solveExcIter sqrt d dt n with
    | .error e => Except.error e
    | .ok p =>
      if Rconst + p.2 = 0 then Except.error ExcKind.zeroDivisionError
      else if Gconst * Mconst / (Rconst + p.2) < 0 then
        Except.error ExcKind.valueError
      else
        if d ≠ 0 then
          if dim_sensore_x * d = 0 then
            Except.error ExcKind.zeroDivisionError
          else Except.ok (sqrt (Gconst * Mconst / (Rconst + p.2)),
            sqrt (Gconst * Mconst / (Rconst + p.2)) /
              (dim_sensore_x * d) * d_focale * n_pixel_x * dt)
        else Except.ok (sqrt (Gconst * Mconst / (Rconst + p.2)), p.2))
      = _
  rw [hprev]
  dsimp only
  rw [if_neg h1, if_pos h2]

/-- Counterexample to C6: under a square-root interpretation returning
1000000000 and a frame pair with displacement 1 measured over a negative
elapsed time, the second solver round hits a negative square-root
argument; the resulting ValueError is not in the caught set of the except
clause, so the comparison step reports it as a fatal fault rather than a
skip. -/
theorem c6_counterexample :
    solveExc (fun _ => (1000000000 : ℚ)) 1 (-1) = .error .valueError ∧
    caughtByLoop .valueError = false ∧
    comparePair (fun _ => (1000000000 : ℚ)) (fun x y => x + y)
      ⟨true, true, true, [((1, 0), (0, 0))], -1⟩ = .fatal .valueError := by
  have e1 : solveExcIter (fun _ => (1000000000 : ℚ)) 1 (-1) 1 =
      .ok (1000000000, (1000000000 : ℚ) / (dim_sensore_x * 1) * d_focale *
        n_pixel_x * (-1)) :=
    solveExcIter_step_ok (fun _ => (1000000000 : ℚ)) 1 (-1) 0 0 400000 rfl
      (by norm_num [Rconst])
      (by norm_num [Gconst, Mconst, Rconst])
      (by norm_num)
      (by norm_num [dim_sensore_x])
  have e2 : solveExcIter (fun _ => (1000000000 : ℚ)) 1 (-1) 2 =
      .error .valueError :=
    solveExcIter_step_domain_error (fun _ => (1000000000 : ℚ)) 1 (-1) 1
      1000000000
      ((1000000000 : ℚ) / (dim_sensore_x * 1) * d_focale * n_pixel_x * (-1))
      e1
      (by norm_num [Rconst, dim_sensore_x, d_focale, n_pixel_x])
      (by norm_num [Gconst, Mconst, Rconst, dim_sensore_x, d_focale,
        n_pixel_x])
  have e8 : solveExc (fun _ => (1000000000 : ℚ)) 1 (-1) =
      .error .valueError :=
    solveExcIter_error_le (fun _ => (1000000000 : ℚ)) 1 (-1) .valueError e2 8
      (by omega)
  refine ⟨e8, rfl, ?_⟩
  have hmd : measuredDistance (fun x y => x + y)
      ⟨true, true, true, [((1, 0), (0, 0))], -1⟩ = 1 := by
    simp [measuredDistance, find_matching_coordinates,
      calculate_mean_distance]
  rw [comparePair]
  rw [if_pos rfl, hmd]
  rw [show (⟨true, true, true, [((1, 0), (0, 0))], -1⟩ : IterInput).dt =
    (-1 : ℚ) from rfl]
  rw [e8]
  rfl

end AstroPi
